import Mathlib

/-!
Verification of the agentic-workflow core of the `ai_backend` repository.

The embedding covers:
* `app/services/guardrails_service.py` — the safety gate (toxicity / PII
  pattern matching), including executable models of the concrete regular
  expressions the service compiles;
* `app/ai/tools.py` — the tool registry, schema validation and the
  AST-validating calculator tool;
* `app/ai/agents.py` — the LangGraph workflow nodes and the `run` entry
  point, with the graph runner modelled from the specification's state
  machine (the `langgraph` library itself is third-party code).

Python strings are modelled as `List Char` (ASCII-exact; the `\w`, `\d`
classes of Python `re` are modelled by their ASCII meaning), Python floats
that can only arise on dead paths are modelled by `ℚ`, and Python
exceptions by `Except`.
-/

namespace AiBackend

/-! ## Regular-expression matchers (model of Python `re.search`)

Each matcher works on an explicit previous-character context so that the
word-boundary assertion `\b` can be modelled exactly.  A matcher receives
the character before the current position (`none` at the start of the
text), the remaining text, and a continuation; alternation and the
optional/repeated pieces try every split, which gives the same
success/failure answer as Python's backtracking search. -/

/-- Python word character `\w`, at the ASCII level: letters, digits, underscore. -/
def isWordChar (c : Char) : Bool := c.isAlpha || c.isDigit || c == '_'

/-- A continuation-style matcher: previous character, remaining input, continuation. -/
abbrev Matcher := Option Char → List Char → (Option Char → List Char → Bool) → Bool

/-- Match a single character satisfying `p`. -/
def mChar (p : Char → Bool) : Matcher := fun _pv s k =>
  match s with
  | [] => false
  | c :: rest => p c && k (some c) rest

/-- Sequential composition of matchers. -/
def mSeq (m1 m2 : Matcher) : Matcher := fun pv s k =>
  m1 pv s (fun pv2 s2 => m2 pv2 s2 k)

/-- One or more characters satisfying `p` (regex `+`), trying every split. -/
def mPlus (p : Char → Bool) : Option Char → List Char → (Option Char → List Char → Bool) → Bool
  | _, [], _ => false
  | _, c :: rest, k => p c && (k (some c) rest || mPlus p (some c) rest k)

/-- Zero or more characters satisfying `p` (regex `*`). -/
def mStar (p : Char → Bool) : Matcher := fun pv s k => k pv s || mPlus p pv s k

/-- An optional single character satisfying `p` (regex `?`). -/
def mOpt (p : Char → Bool) : Matcher := fun pv s k => mChar p pv s k || k pv s

/-- Exactly `n` characters satisfying `p` (regex `{n}`). -/
def mRep (p : Char → Bool) : Nat → Matcher
  | 0 => fun pv s k => k pv s
  | n + 1 => mSeq (mChar p) (mRep p n)

/-- At least `n` characters satisfying `p` (regex `{n,}`). -/
def mAtLeast (p : Char → Bool) (n : Nat) : Matcher := mSeq (mRep p n) (mStar p)

/-- Is the optional character a word character (absent counts as non-word)? -/
def wordOpt : Option Char → Bool
  | none => false
  | some c => isWordChar c

/-- The zero-width word-boundary assertion `\b`. -/
def mBdry : Matcher := fun pv s k => (wordOpt pv != wordOpt s.head?) && k pv s

/-- Match a literal character sequence. -/
def mLit : List Char → Matcher
  | [] => fun pv s k => k pv s
  | c :: cs => fun _pv s k =>
    match s with
    | [] => false
    | d :: rest => d == c && mLit cs (some d) rest k

/-- Model of `re.search`: try the matcher at every position of the text. -/
def mSearch (m : Matcher) : Option Char → List Char → Bool
  | pv, s =>
    m pv s (fun _ _ => true) ||
      match s with
      | [] => false
      | c :: rest => mSearch m (some c) rest

/-- Search the whole text from its start. -/
def reSearch (m : Matcher) (t : List Char) : Bool := mSearch m none t

/-! ## The concrete patterns of `GuardrailsService.__init__` -/

/-- ASCII model of Python `\d`. -/
def digitCh (c : Char) : Bool := c.isDigit

/-- The alternation `(hate|violence|harmful)`. -/
def toxWord : Matcher := fun pv s k =>
  mLit "hate".data pv s k || mLit "violence".data pv s k || mLit "harmful".data pv s k

/-- The toxicity pattern `\b(hate|violence|harmful)\b`. -/
def toxicityRe : Matcher := mSeq mBdry (mSeq toxWord mBdry)

/-- Character class `[A-Za-z0-9._%+-]` (local part of the email pattern). -/
def emailLocalCh (c : Char) : Bool :=
  c.isAlpha || c.isDigit || c == '.' || c == '_' || c == '%' || c == '+' || c == '-'

/-- Character class `[A-Za-z0-9.-]` (domain part of the email pattern). -/
def emailDomainCh (c : Char) : Bool := c.isAlpha || c.isDigit || c == '.' || c == '-'

/-- Character class `[A-Z|a-z]` — note the source's class literally contains `|`. -/
def emailTldCh (c : Char) : Bool :=
  ('A' ≤ c && c ≤ 'Z') || ('a' ≤ c && c ≤ 'z') || c == '|'

/-- The email pattern `\b[A-Za-z0-9._%+-]+@[A-Za-z0-9.-]+\.[A-Z|a-z]{2,}\b`. -/
def emailRe : Matcher :=
  mSeq mBdry (mSeq (mPlus emailLocalCh) (mSeq (mChar (· == '@'))
    (mSeq (mPlus emailDomainCh) (mSeq (mChar (· == '.'))
      (mSeq (mAtLeast emailTldCh 2) mBdry)))))

/-- Character class `[-.]` (phone separators). -/
def phoneSepCh (c : Char) : Bool := c == '-' || c == '.'

/-- The phone pattern `\b\d{3}[-.]?\d{3}[-.]?\d{4}\b`. -/
def phoneRe : Matcher :=
  mSeq mBdry (mSeq (mRep digitCh 3) (mSeq (mOpt phoneSepCh)
    (mSeq (mRep digitCh 3) (mSeq (mOpt phoneSepCh)
      (mSeq (mRep digitCh 4) mBdry)))))

/-- The ssn pattern `\b\d{3}-\d{2}-\d{4}\b`. -/
def ssnRe : Matcher :=
  mSeq mBdry (mSeq (mRep digitCh 3) (mSeq (mChar (· == '-'))
    (mSeq (mRep digitCh 2) (mSeq (mChar (· == '-'))
      (mSeq (mRep digitCh 4) mBdry)))))

/-- Character class `[- ]` (credit-card separators). -/
def ccSepCh (c : Char) : Bool := c == '-' || c == ' '

/-- The credit-card pattern `\b\d{4}[- ]?\d{4}[- ]?\d{4}[- ]?\d{4}\b`. -/
def creditCardRe : Matcher :=
  mSeq mBdry (mSeq (mRep digitCh 4) (mSeq (mOpt ccSepCh)
    (mSeq (mRep digitCh 4) (mSeq (mOpt ccSepCh)
      (mSeq (mRep digitCh 4) (mSeq (mOpt ccSepCh)
        (mSeq (mRep digitCh 4) mBdry)))))))

/-! ## Settings (`app/config.py`, the fields the core consumes) -/

/-- The LLM provider enumeration of `app/config.py`. -/
inductive LLMProvider where
  | openai
  | groq
  | vertexAi
  | awsBedrock
deriving DecidableEq

/-- The configuration fields of `Settings` consumed by the agentic core,
with the defaults of `app/config.py`. -/
structure Settings where
  GUARDRAILS_ENABLED : Bool
  GUARDRAILS_MAX_TOXICITY_SCORE : ℚ
  GUARDRAILS_MAX_PII_DETECTION : Bool
  GUARDRAILS_FALLBACK_ENABLED : Bool
  AGENT_MAX_ITERATIONS : Nat
  AGENT_ENABLE_TOOLS : Bool
  AGENT_ENABLE_MCP : Bool
  AGENT_ENABLE_A2A : Bool
  LLM_PROVIDER : LLMProvider
  RAG_TOP_K : Nat
deriving DecidableEq

/-- The default values of `app/config.py`. -/
def defaultSettings : Settings where
  GUARDRAILS_ENABLED := true
  GUARDRAILS_MAX_TOXICITY_SCORE := mkRat 1 2
  GUARDRAILS_MAX_PII_DETECTION := true
  GUARDRAILS_FALLBACK_ENABLED := true
  AGENT_MAX_ITERATIONS := 10
  AGENT_ENABLE_TOOLS := true
  AGENT_ENABLE_MCP := false
  AGENT_ENABLE_A2A := false
  LLM_PROVIDER := LLMProvider.groq
  RAG_TOP_K := 5

/-! ## Guardrails service (`app/services/guardrails_service.py`) -/

/-- The `toxicity_patterns` list: one compiled pattern, searched on the
lowercased text (the `re.IGNORECASE` flag is absorbed by lowercasing,
which the service performs first in any case). -/
def toxicityPatterns : List (List Char → Bool) := [fun cs => reSearch toxicityRe cs]

/-- Python's two-argument `min`, written with an explicit comparison so that
it evaluates by kernel reduction. -/
def pyMin (a b : ℚ) : ℚ := if a ≤ b then a else b

/-- Embeds `GuardrailsService._check_toxicity`: the number of matching patterns
normalised to `[0,1]`. -/
def checkToxicityScore (text : List Char) : ℚ :=
  let lowered := text.map Char.toLower
  let nMatches : Nat := (toxicityPatterns.filter (fun p => p lowered)).length
  if toxicityPatterns.length = 0 then 0
  else pyMin (mkRat nMatches toxicityPatterns.length) 1

/-- The `pii_patterns` dict in its insertion order: email, phone, ssn, credit_card. -/
def piiPatterns : List (String × Matcher) :=
  [("email", emailRe), ("phone", phoneRe), ("ssn", ssnRe), ("credit_card", creditCardRe)]

/-- Embeds `GuardrailsService._detect_pii`: true iff any PII pattern matches. -/
def detectPii (text : List Char) : Bool :=
  piiPatterns.any (fun p => reSearch p.2 text)

/-- Embeds `GuardrailsService.check_input`: returns `(is_safe, reason)`. -/
def checkInput (s : Settings) (text : List Char) : Bool × Option String :=
  if !s.GUARDRAILS_ENABLED then (true, none)
  else if s.GUARDRAILS_MAX_TOXICITY_SCORE < checkToxicityScore text then
    (false, some "Input contains inappropriate content")
  else if s.GUARDRAILS_MAX_PII_DETECTION && detectPii text then
    (false, some "Input contains potentially sensitive information")
  else (true, none)

/-- Embeds `GuardrailsService.check_output`: returns `(is_safe, reason)`. -/
def checkOutput (s : Settings) (text : List Char) : Bool × Option String :=
  if !s.GUARDRAILS_ENABLED then (true, none)
  else if s.GUARDRAILS_MAX_TOXICITY_SCORE < checkToxicityScore text then
    (if s.GUARDRAILS_FALLBACK_ENABLED then
      (false, some "Response filtered due to content policy")
    else (false, some "Response contains inappropriate content"))
  else if s.GUARDRAILS_MAX_PII_DETECTION && detectPii text then
    (false, some "Response contains potentially sensitive information")
  else (true, none)

/-! ## Python `ast` model and the calculator tool (`app/ai/tools.py`)

`ast.parse(expression, mode='eval')` wraps the parsed expression in an
`ast.Expression` root node, and `ast.walk` yields the root node itself
first, then all descendants in breadth-first order — including the
operator objects (`ast.Add()` …), which are themselves AST nodes. -/

/-- A Python number: `int` or `float`.  The float arm is modelled by `ℚ`;
it can only be produced by `/`, which is unreachable in the calculator
(see `validateWalk_expression`), so the modelling gap for floats never
shows in an observable result. -/
inductive PyNum where
  | intVal (n : Int)
  | floatVal (q : ℚ)
deriving DecidableEq

/-- The Python AST nodes that can appear in a parse of the calculator's
restricted character set.  Operator objects are nodes of their own, as in
Python. -/
inductive PyAst where
  | expression (body : PyAst)
  | binOp (left : PyAst) (op : PyAst) (right : PyAst)
  | unaryOp (op : PyAst) (operand : PyAst)
  | constant (value : PyNum)
  | addOp
  | subOp
  | multOp
  | divOp
  | usubOp
  | uaddOp
deriving DecidableEq

/-- The child nodes of a node, in Python's field order. -/
def PyAst.children : PyAst → List PyAst
  | .expression b => [b]
  | .binOp l o r => [l, o, r]
  | .unaryOp o e => [o, e]
  | _ => []

/-- Structural size, used to bound the breadth-first walk. -/
def PyAst.size : PyAst → Nat
  | .expression b => b.size + 1
  | .binOp l o r => l.size + o.size + r.size + 1
  | .unaryOp o e => o.size + e.size + 1
  | _ => 1

/-- Total size of a list of nodes. -/
def sizeList (l : List PyAst) : Nat := (l.map PyAst.size).sum

/-- Model of `ast.walk`: breadth-first traversal using a queue, yielding each node
(the root included) before its children.  Written with a fuel argument so
that it evaluates by kernel reduction; `walkAuxF_fuel_irrelevant` shows
any fuel of at least the total size of the queue gives the traversal. -/
def walkAuxF : Nat → List PyAst → List PyAst
  | 0, _ => []
  | _, [] => []
  | fuel + 1, n :: todo => n :: walkAuxF fuel (todo ++ n.children)

/-- Model of `ast.walk(tree)`. -/
def astWalk (tree : PyAst) : List PyAst := walkAuxF tree.size [tree]

/-- One step of the calculator's validation loop: nodes that are
`BinOp`, `UnaryOp` or `Constant` pass; every other node — in particular
the root `Expression` and the operator objects — takes the `else` branch
and aborts with the fixed error string.  (The source's
`elif isinstance(node, ast.BinOp)` arm is unreachable because the first
`isinstance` check already covers `BinOp`.) -/
def validateNode : PyAst → Option String
  | .binOp _ _ _ => none
  | .unaryOp _ _ => none
  | .constant _ => none
  | _ => some "Error: Only basic arithmetic operations are allowed"

/-- The calculator's `for node in ast.walk(tree)` validation loop. -/
def validateWalk : List PyAst → Option String
  | [] => none
  | n :: rest =>
    match validateNode n with
    | some e => some e
    | none => validateWalk rest

/-- Numeric value of a `PyNum` (for arithmetic on the dead path). -/
def PyNum.toRat : PyNum → ℚ
  | .intVal n => (n : ℚ)
  | .floatVal q => q

/-- Python `+` on numbers: int if both ints, float otherwise. -/
def pyAdd (a b : PyNum) : PyNum :=
  match a, b with
  | .intVal m, .intVal n => .intVal (m + n)
  | _, _ => .floatVal (a.toRat + b.toRat)

/-- Python `-` on numbers. -/
def pySub (a b : PyNum) : PyNum :=
  match a, b with
  | .intVal m, .intVal n => .intVal (m - n)
  | _, _ => .floatVal (a.toRat - b.toRat)

/-- Python `*` on numbers. -/
def pyMul (a b : PyNum) : PyNum :=
  match a, b with
  | .intVal m, .intVal n => .intVal (m * n)
  | _, _ => .floatVal (a.toRat * b.toRat)

/-- Python `/` (true division): always a float, raising on a zero
denominator. -/
def pyDiv (a b : PyNum) : Except String PyNum :=
  if b.toRat = 0 then
    .error (match a, b with
      | .intVal _, .intVal _ => "division by zero"
      | _, _ => "float division by zero")
  else .ok (.floatVal (a.toRat / b.toRat))

/-- Python unary `-` on numbers. -/
def pyNeg (a : PyNum) : PyNum :=
  match a with
  | .intVal m => .intVal (-m)
  | .floatVal q => .floatVal (-q)

/-- The calculator's `eval_node`, with the `ops` lookup table containing
`Add`, `Sub`, `Mult`, `Div` and `USub` only; a `UAdd` raises a `KeyError`
before its operand is evaluated, and non-arithmetic nodes raise
`ValueError("Unsupported operation")`.  Unreachable from `calculator`
(validation rejects every tree first). -/
def evalNode : PyAst → Except String PyNum
  | .constant v => .ok v
  | .binOp l o r => do
    let a ← evalNode l
    let b ← evalNode r
    match o with
    | .addOp => .ok (pyAdd a b)
    | .subOp => .ok (pySub a b)
    | .multOp => .ok (pyMul a b)
    | .divOp => pyDiv a b
    | _ => .error "Unsupported operation"
  | .unaryOp o e =>
    match o with
    | .usubOp => do
      let v ← evalNode e
      .ok (pyNeg v)
    | .uaddOp => .error "<class 'ast.UAdd'>"
    | _ => .error "Unsupported operation"
  | _ => .error "Unsupported operation"

/-- Model of `str` of a Python number on the calculator's dead path: exact for
ints; floats render their numerator/denominator pair (the path is proved
unreachable, so the float rendering never reaches an observable result). -/
def pyStr : PyNum → String
  | .intVal n => toString n
  | .floatVal q => toString q.num ++ "/" ++ toString q.den

/-! ### Parser for the restricted grammar (model of `ast.parse(·, mode='eval')`)

Only the characters `0123456789+-*/.() ` can reach the parser (the
calculator rejects everything else beforehand), so the grammar is:
additive expression over multiplicative over unary over atoms, with
Python's associativity and precedence, producing the `ast` node shapes
Python produces. -/

/-- Skip spaces (the only whitespace admitted by the character filter). -/
def skipSpaces : List Char → List Char
  | ' ' :: rest => skipSpaces rest
  | s => s

/-- Numeric value of a digit run. -/
def digitsVal (ds : List Char) : Nat :=
  ds.foldl (fun a c => a * 10 + (c.toNat - 48)) 0

/-- Parse a numeric literal: `d+`, `d+.d*` or `.d+`. -/
def parseNumber (s : List Char) : Option (PyNum × List Char) :=
  let intDigits := s.takeWhile Char.isDigit
  let afterInt := s.drop intDigits.length
  if intDigits.isEmpty then
    match afterInt with
    | '.' :: rest =>
      let fracDigits := rest.takeWhile Char.isDigit
      if fracDigits.isEmpty then none
      else some (.floatVal (mkRat (digitsVal fracDigits) (10 ^ fracDigits.length)),
        rest.drop fracDigits.length)
    | _ => none
  else
    match afterInt with
    | '.' :: rest =>
      let fracDigits := rest.takeWhile Char.isDigit
      some (.floatVal (mkRat (digitsVal (intDigits ++ fracDigits)) (10 ^ fracDigits.length)),
        rest.drop fracDigits.length)
    | _ => some (.intVal (digitsVal intDigits), afterInt)

mutual

/-- Additive level: `mul (('+'|'-') mul)*`, left-associative. -/
def parseAddE : Nat → List Char → Option (PyAst × List Char)
  | 0, _ => none
  | fuel + 1, s => do
    let (t, s1) ← parseMulE fuel s
    parseAddRest fuel t s1

/-- The `(('+'|'-') mul)*` loop of the additive level. -/
def parseAddRest : Nat → PyAst → List Char → Option (PyAst × List Char)
  | 0, _, _ => none
  | fuel + 1, acc, s =>
    match skipSpaces s with
    | '+' :: s1 => do
      let (t, s2) ← parseMulE fuel s1
      parseAddRest fuel (.binOp acc .addOp t) s2
    | '-' :: s1 => do
      let (t, s2) ← parseMulE fuel s1
      parseAddRest fuel (.binOp acc .subOp t) s2
    | s0 => some (acc, s0)

/-- Multiplicative level: `unary (('*'|'/') unary)*`, left-associative. -/
def parseMulE : Nat → List Char → Option (PyAst × List Char)
  | 0, _ => none
  | fuel + 1, s => do
    let (t, s1) ← parseUnaryE fuel s
    parseMulRest fuel t s1

/-- The `(('*'|'/') unary)*` loop of the multiplicative level. -/
def parseMulRest : Nat → PyAst → List Char → Option (PyAst × List Char)
  | 0, _, _ => none
  | fuel + 1, acc, s =>
    match skipSpaces s with
    | '*' :: s1 => do
      let (t, s2) ← parseUnaryE fuel s1
      parseMulRest fuel (.binOp acc .multOp t) s2
    | '/' :: s1 => do
      let (t, s2) ← parseUnaryE fuel s1
      parseMulRest fuel (.binOp acc .divOp t) s2
    | s0 => some (acc, s0)

/-- Unary level: `('+'|'-')* atom`, producing `UnaryOp` chains. -/
def parseUnaryE : Nat → List Char → Option (PyAst × List Char)
  | 0, _ => none
  | fuel + 1, s =>
    match skipSpaces s with
    | '-' :: s1 => do
      let (e, s2) ← parseUnaryE fuel s1
      some (.unaryOp .usubOp e, s2)
    | '+' :: s1 => do
      let (e, s2) ← parseUnaryE fuel s1
      some (.unaryOp .uaddOp e, s2)
    | s0 => parseAtomE fuel s0

/-- Atoms: numeric literals and parenthesised expressions. -/
def parseAtomE : Nat → List Char → Option (PyAst × List Char)
  | 0, _ => none
  | fuel + 1, s =>
    match skipSpaces s with
    | '(' :: s1 => do
      let (e, s2) ← parseAddE fuel s1
      match skipSpaces s2 with
      | ')' :: s3 => some (e, s3)
      | _ => none
    | s0 => do
      let (n, s1) ← parseNumber s0
      some (.constant n, s1)

end

/-- Model of `ast.parse(expression, mode='eval')`: parse the whole input (spaces
allowed around tokens) and wrap the result in the `Expression` root node;
`none` models a `SyntaxError`. -/
def pyParse (s : List Char) : Option PyAst := do
  let (e, rest) ← parseAddE (4 * s.length + 8) s
  match skipSpaces rest with
  | [] => some (.expression e)
  | _ => none

/-- Does `needle` start `hay`? -/
def startsWithL : List Char → List Char → Bool
  | [], _ => true
  | _ :: _, [] => false
  | a :: as, b :: bs => a == b && startsWithL as bs

/-- Does `needle` occur anywhere in `hay` (Python's `in` on strings)? -/
def hasSubstr (needle : List Char) : List Char → Bool
  | [] => startsWithL needle []
  | c :: rest => startsWithL needle (c :: rest) || hasSubstr needle rest

/-- The character filter `set("0123456789+-*/.() ")`. -/
def allowedCalcChar (c : Char) : Bool := "0123456789+-*/.() ".data.contains c

/-- The `calculator` tool of `ToolService._initialize_default_tools` in
`app/ai/tools.py`: banned-substring check, length bound, character
filter, `ast.parse`, the `ast.walk` validation loop, then `eval_node`. -/
def calculator (expression : String) : String :=
  let cs := expression.data
  let lowerCs := cs.map Char.toLower
  if hasSubstr "**".data cs || hasSubstr "pow(".data lowerCs ||
      hasSubstr "exec(".data lowerCs || hasSubstr "eval(".data lowerCs then
    "Error: Power operator and function calls are not allowed"
  else if 100 < cs.length then
    "Error: Expression too long"
  else if !(cs.all allowedCalcChar) then
    "Error: Invalid characters in expression"
  else
    match pyParse cs with
    | none => "Error: Invalid expression syntax"
    | some tree =>
      match validateWalk (astWalk tree) with
      | some msg => msg
      | none =>
        match tree with
        | .expression body =>
          match evalNode body with
          | .ok v => pyStr v
          | .error msg => "Error: " ++ msg
        | _ => "Error: Unsupported operation"

/-! ## Messages and tool calls (`langchain_core.messages`, as used by the core)

A message is modelled by its role, its content, and — for assistant
messages — the bundle of its remaining fields (`tool_calls` plus the other
attributes, kept opaque as a key/value list) so that the frame conditions
of the output filter can be stated exactly. -/

/-- A structured tool invocation request carried by an assistant message. -/
structure ToolCall where
  name : String
  args : List (String × String)
  id : String
deriving DecidableEq

/-- The non-`content` fields of an assistant message: its `tool_calls`
plus all remaining attributes, the latter opaque. -/
structure AIRest where
  toolCalls : List ToolCall
  meta : List (String × String)
deriving DecidableEq

/-- A conversation message. -/
inductive Message where
  | human (content : String)
  | system (content : String)
  | ai (content : String) (rest : AIRest)
  | tool (content : String) (toolCallId : String)
deriving DecidableEq

/-- An assistant message with no tool calls and no extra attributes. -/
def plainAi (content : String) : Message := .ai content ⟨[], []⟩

/-- Is a message a `SystemMessage`? -/
def isSystemMsg : Message → Bool
  | .system _ => true
  | _ => false

/-- Is a message a `ToolMessage`? -/
def isToolMsg : Message → Bool
  | .tool _ _ => true
  | _ => false

/-! ## Tool registry and executor (`app/ai/tools.py`) -/

/-- The declared argument type of a tool parameter.  The built-in tools
take string parameters only. -/
inductive ArgType where
  | strT
deriving DecidableEq

/-- A registered tool: name, declared argument schema, handler.  The
handler returns `Except`: `error` models a Python exception escaping the
handler, `ok` a returned value. -/
structure ToolDef where
  name : String
  schema : List (String × ArgType)
  handler : List (String × String) → Except String String

/-- A Python exception raised out of `ToolService.execute_tool`. -/
inductive PyError where
  | valueError (msg : String)
  | validationError (msg : String)
  | handlerError (msg : String)
deriving DecidableEq

/-- Model of `str(e)` for an exception raised out of `execute_tool`. -/
def PyError.str : PyError → String
  | .valueError m => m
  | .validationError m => m
  | .handlerError m => m

/-- Modelled from the spec: the schema validation `langchain`/`pydantic`
performs inside `tool.ainvoke` before the handler runs ("holds named
tools, each with a declared argument schema"; schema-validated arguments).
A missing required field is a validation error, raised as an exception. -/
def validateArgs : List (String × ArgType) → List (String × String) → Option String
  | [], _ => none
  | (f, _t) :: rest, args =>
    match args.lookup f with
    | none => some ("1 validation error for " ++ f ++ ": Field required")
    | some _ => validateArgs rest args

/-- The `calculator` entry of `_initialize_default_tools`. -/
def calculatorTool : ToolDef where
  name := "calculator"
  schema := [("expression", ArgType.strT)]
  handler := fun args =>
    match args.lookup "expression" with
    | some e => .ok (calculator e)
    | none => .error "missing expression"

/-- The fallback `web_search` tool (the DuckDuckGo import is modelled as
unavailable, as the source anticipates for its target runtime). -/
def webSearchTool : ToolDef where
  name := "web_search"
  schema := [("query", ArgType.strT)]
  handler := fun args =>
    match args.lookup "query" with
    | some q => .ok ("Web search is not available. Query: " ++ q)
    | none => .error "missing query"

/-- The fallback `wikipedia_search` tool. -/
def wikipediaSearchTool : ToolDef where
  name := "wikipedia_search"
  schema := [("query", ArgType.strT)]
  handler := fun args =>
    match args.lookup "query" with
    | some q => .ok ("Wikipedia search is not available. Query: " ++ q)
    | none => .error "missing query"

/-- The `get_current_time` tool; the clock is an environment parameter. -/
def getCurrentTimeTool (now : String) : ToolDef where
  name := "get_current_time"
  schema := []
  handler := fun _ => .ok now

/-- Embeds `ToolService.tools` after `_initialize_default_tools`, in registration
order. -/
def defaultTools (now : String) : List ToolDef :=
  [calculatorTool, webSearchTool, wikipediaSearchTool, getCurrentTimeTool now]

/-! ## External collaborators of the workflow -/

/-- Modelled from the spec: the LLM Gateway contract of `app/ai/llm.py`
(a file not present in the sources; only its call sites are).
`generate_with_tools` returns an assistant message that may carry tool
calls; `generate` returns plain text; `error` models a raised exception. -/
structure Backend where
  generateWithTools : List Message → List ToolDef → Except String Message
  generate : List Message → Except String String

/-- Modelled from the spec: the Context Retriever contract
(`get_context(query, user_id, document_id?, top_k) -> text`); `error`
models a raised exception. -/
structure Retriever where
  getRelevantContext : String → Int → Option Int → Nat → Except String String

/-- The collaborators and configuration one `AgentService` instance closes
over: settings, LLM backend, optional RAG service (absent when no DB
session is supplied), the tool registry, and the clock. -/
structure Env where
  settings : Settings
  backend : Backend
  retriever : Option Retriever
  tools : List ToolDef
  mcpTools : List (String × ToolDef)
  a2aTools : List (String × ToolDef)

/-- Embeds `ToolService.get_available_tools`. -/
def availableTools (env : Env) : List ToolDef :=
  env.tools ++
    (if env.settings.AGENT_ENABLE_MCP then env.mcpTools.map Prod.snd else []) ++
    (if env.settings.AGENT_ENABLE_A2A then env.a2aTools.map Prod.snd else [])

/-- Embeds `ToolService.execute_tool`: look the tool up by name (the flat list,
then MCP, then A2A registries, the latter two only when enabled), raise
`ValueError` when absent, otherwise invoke it — which validates the
arguments against the schema and runs the handler.  Every `error` models
an exception raised to the caller. -/
def executeTool (env : Env) (toolName : String) (args : List (String × String)) :
    Except PyError String :=
  let t0 := env.tools.find? (fun t => t.name == toolName)
  let t1 := match t0 with
    | some t => some t
    | none =>
      if env.settings.AGENT_ENABLE_MCP then env.mcpTools.lookup toolName else none
  let t2 := match t1 with
    | some t => some t
    | none =>
      if env.settings.AGENT_ENABLE_A2A then env.a2aTools.lookup toolName else none
  match t2 with
  | none => .error (.valueError ("Tool '" ++ toolName ++ "' not found"))
  | some t =>
    match validateArgs t.schema args with
    | some msg => .error (.validationError msg)
    | none =>
      match t.handler args with
      | .ok r => .ok r
      | .error m => .error (.handlerError m)

/-! ## The workflow state and nodes (`app/ai/agents.py`) -/

/-- An entry of `tool_results`. -/
structure ToolResult where
  tool : String
  result : String
deriving DecidableEq

/-- The `AgentState` TypedDict. -/
structure AgentState where
  messages : List Message
  userId : Int
  documentId : Option Int
  iterationCount : Nat
  context : Option String
  toolResults : List ToolResult
  guardrailsRejected : Bool
deriving DecidableEq

/-- Observable calls made to the collaborators during a run. -/
inductive Event where
  | ragCall
  | llmToolsCall
  | llmGenCall
deriving DecidableEq

/-- Render an `Optional[str]` inside a Python f-string. -/
def optStr : Option String → String
  | none => "None"
  | some s => s

/-- Embeds `AgentService._guardrails_node`. -/
def guardrailsNode (env : Env) (st : AgentState) : AgentState :=
  let st := { st with guardrailsRejected := false }
  if !env.settings.GUARDRAILS_ENABLED then st
  else
    match st.messages.getLast? with
    | some (.human content) =>
      match checkInput env.settings content.data with
      | (true, _) => st
      | (false, reason) =>
        { st with
          messages := st.messages ++ [plainAi ("Input rejected: " ++ optStr reason)]
          guardrailsRejected := true }
    | _ => st

/-- Embeds `AgentService._should_continue_after_guardrails`. -/
def shouldContinueAfterGuardrails (st : AgentState) : Bool := !st.guardrailsRejected

/-- Embeds `AgentService._rag_retrieval_node`: a raised retriever exception is
captured as the context text. -/
def ragRetrievalNode (env : Env) (st : AgentState) : AgentState × List Event :=
  match env.retriever with
  | none => (st, [])
  | some r =>
    match st.messages.getLast? with
    | some (.human content) =>
      match r.getRelevantContext content st.userId st.documentId env.settings.RAG_TOP_K with
      | .ok ctx => ({ st with context := some ctx }, [.ragCall])
      | .error e =>
        ({ st with context := some ("Error retrieving context: " ++ e) }, [.ragCall])
    | _ => (st, [])

/-- Python truthiness of the optional context string. -/
def ctxTruthy : Option String → Bool
  | none => false
  | some c => !(c == "")

/-- Model of `messages.insert(-1, m)`: insert before the last element. -/
def insertPenultimate (ms : List Message) (m : Message) : List Message :=
  match ms.getLast? with
  | none => [m]
  | some last => ms.dropLast ++ [m, last]

/-- The system prompt of `AgentService._get_system_prompt` (abbreviated
to its first line; only its presence and role matter to the control
flow). -/
def systemPrompt : String :=
  "You are a helpful AI assistant with access to document knowledge and tools."

/-- Embeds `AgentService._agent_node`.  The node works on a copy of the message
list (context/system-prompt insertion and — notably — the
iteration-limit message only affect the copy); the produced response is
appended to the state's own list.  A raised `generate_with_tools`
exception falls back to `generate`; a raised `generate` exception
propagates (`error`). -/
def agentNode (env : Env) (st : AgentState) : Except String (AgentState × List Event) :=
  let copied := st.messages
  let copied :=
    if ctxTruthy st.context then
      insertPenultimate copied
        (.system ("Relevant context from documents:\n" ++ optStr st.context))
    else copied
  let copied :=
    if copied.any isSystemMsg then copied else .system systemPrompt :: copied
  if env.settings.AGENT_MAX_ITERATIONS ≤ st.iterationCount then
    -- the source appends the limit message to the copied list and returns
    -- the state, so the state is unchanged here
    .ok (st, [])
  else
    let st := { st with iterationCount := st.iterationCount + 1 }
    let tools :=
      if env.settings.AGENT_ENABLE_TOOLS && !(env.settings.LLM_PROVIDER == LLMProvider.groq)
      then availableTools env
      else []
    if !tools.isEmpty then
      match env.backend.generateWithTools copied tools with
      | .ok resp => .ok ({ st with messages := st.messages ++ [resp] }, [.llmToolsCall])
      | .error _ =>
        match env.backend.generate copied with
        | .ok text =>
          .ok ({ st with messages := st.messages ++ [plainAi text] },
            [.llmToolsCall, .llmGenCall])
        | .error e => .error e
    else
      match env.backend.generate copied with
      | .ok text => .ok ({ st with messages := st.messages ++ [plainAi text] }, [.llmGenCall])
      | .error e => .error e

/-- Embeds `AgentService._should_use_tools`. -/
def shouldUseTools (st : AgentState) : Bool :=
  match st.messages.getLast? with
  | some (.ai _ rest) => !rest.toolCalls.isEmpty
  | _ => false

/-- Embeds `AgentService._tool_execution_node`: run every tool call of the last
assistant message; a successful call is appended as a tool message and
recorded in the fresh `tool_results` list, a raised exception is caught
per call and appended as an error tool message (and not recorded);
`state["tool_results"]` is then overwritten with the fresh list. -/
def toolExecutionNode (env : Env) (st : AgentState) : AgentState :=
  match st.messages.getLast? with
  | some (.ai _ rest) =>
    let step := rest.toolCalls.foldl
      (fun (acc : List ToolResult × List Message) tc =>
        match executeTool env tc.name tc.args with
        | .ok r => (acc.1 ++ [⟨tc.name, r⟩], acc.2 ++ [.tool r tc.id])
        | .error e =>
          (acc.1, acc.2 ++ [.tool ("Error executing tool: " ++ e.str) tc.id]))
      ([], [])
    { st with messages := st.messages ++ step.2, toolResults := step.1 }
  | _ => { st with toolResults := [] }

/-- Embeds `AgentService._response_generation_node`: output guardrails; on
rejection, the last assistant message is replaced by a new message whose
content carries the reason and whose every other field is copied over. -/
def responseGenerationNode (env : Env) (st : AgentState) : AgentState :=
  if !env.settings.GUARDRAILS_ENABLED then st
  else
    match st.messages.getLast? with
    | some (.ai content rest) =>
      match checkOutput env.settings content.data with
      | (true, _) => st
      | (false, reason) =>
        { st with
          messages := st.messages.dropLast ++
            [.ai ("Response filtered: " ++ optStr reason) rest] }
    | _ => st

/-- Modelled from the spec: the graph runner (`langgraph` is third-party
code).  §4.1: `reason → execute_tools` iff the produced assistant message
carries tool calls, `execute_tools → reason` unconditionally — the only
cycle; `reason → safety_out` otherwise.  The fuel argument makes the
cycle structural; `AGENT_MAX_ITERATIONS + 1` suffices because every pass
through `reason` either increments the bounded iteration counter or exits
the loop. -/
def agentLoop (env : Env) : Nat → AgentState → Except String (AgentState × List Event)
  | 0, st => .ok (st, [])
  | fuel + 1, st =>
    match agentNode env st with
    | .error e => .error e
    | .ok (st1, ev1) =>
      if shouldUseTools st1 then
        match agentLoop env fuel (toolExecutionNode env st1) with
        | .error e => .error e
        | .ok (st3, evs) => .ok (st3, ev1 ++ evs)
      else
        .ok (responseGenerationNode env st1, ev1)

/-- Embeds `AgentService.run` up to result extraction: the initial state, the
guardrails stage with its conditional edge, the retrieval stage, then the
reasoning/tool cycle ending in the output-safety stage. -/
def runAgentState (env : Env) (query : String) (userId : Int) (documentId : Option Int) :
    Except String (AgentState × List Event) :=
  let st0 : AgentState :=
    { messages := [.human query]
      userId := userId
      documentId := documentId
      iterationCount := 0
      context := none
      toolResults := []
      guardrailsRejected := false }
  let st1 := guardrailsNode env st0
  if !(shouldContinueAfterGuardrails st1) then .ok (st1, [])
  else
    let p := ragRetrievalNode env st1
    match agentLoop env (env.settings.AGENT_MAX_ITERATIONS + 1) p.1 with
    | .ok (st3, ev3) => .ok (st3, p.2 ++ ev3)
    | .error e => .error e

/-- The result dictionary built by `AgentService.run`. -/
structure RunResult where
  response : String
  messages : List Message
  toolResults : List ToolResult
  iterations : Nat
  contextUsed : Bool
deriving DecidableEq

/-- Result extraction at the end of `AgentService.run`. -/
def mkRunResult (st : AgentState) : RunResult where
  response :=
    match st.messages.getLast? with
    | some (.ai c _) => c
    | _ => ""
  messages := st.messages
  toolResults := st.toolResults
  iterations := st.iterationCount
  contextUsed := st.context.isSome

/-- Embeds `AgentService.run`: the full turn; `error` models an exception
propagating to the caller. -/
def runAgent (env : Env) (query : String) (userId : Int) (documentId : Option Int) :
    Except String (RunResult × List Event) :=
  match runAgentState env query userId documentId with
  | .ok (st, evs) => .ok (mkRunResult st, evs)
  | .error e => .error e

/-! ## Concrete scenarios used by the claims

Mocks are pure: a backend that must behave differently on successive
reasoning steps does so by counting the tool messages already present in
the conversation it receives. -/

/-- The content of a message. -/
def Message.content : Message → String
  | .human c => c
  | .system c => c
  | .ai c _ => c
  | .tool c _ => c

/-- Number of tool-role messages in a conversation. -/
def countToolMsgs (ms : List Message) : Nat := (ms.filter isToolMsg).length

/-- The fixed iteration-limit message text of `_agent_node`. -/
def limitText : String := "Maximum iterations reached. Please try a simpler query."

/-- An assistant message requesting one `web_search(query="x")` call. -/
def wsCallMsg : Message := .ai "" ⟨[⟨"web_search", [("query", "x")], "call-1"⟩], []⟩

/-- The fallback `web_search` tool's answer for query `x`. -/
def wsResult : String := "Web search is not available. Query: x"

/-- The tool message recording that answer. -/
def wsToolMsg : Message := .tool wsResult "call-1"

/-- An assistant message requesting one `calculator(expression="2+2")` call. -/
def calcCallMsg : Message := .ai "" ⟨[⟨"calculator", [("expression", "2+2")], "call-1"⟩], []⟩

/-- Default settings with a tool-call-capable provider and a chosen
iteration cap (the default provider, Groq, never receives tools). -/
def mockSettings (m : Nat) : Settings :=
  { defaultSettings with AGENT_MAX_ITERATIONS := m, LLM_PROVIDER := LLMProvider.openai }

/-- A mock backend that requests one `web_search` call on each of its
first `n` reasoning steps and then answers plainly. -/
def mockBackendN (n : Nat) : Backend where
  generateWithTools := fun ms _ =>
    if countToolMsgs ms < n then .ok wsCallMsg else .ok (plainAi "All done")
  generate := fun _ => .ok "plain"

/-- A mock backend that requests a tool call on every reasoning step. -/
def alwaysToolBackend : Backend where
  generateWithTools := fun _ _ => .ok wsCallMsg
  generate := fun _ => .ok "plain"

/-- A mock backend that requests `calculator(expression="2+2")` exactly
once, then stops requesting tools. -/
def calcOnceBackend : Backend where
  generateWithTools := fun ms _ =>
    if countToolMsgs ms < 1 then .ok calcCallMsg else .ok (plainAi "Done")
  generate := fun _ => .ok "plain"

/-- A backend none of whose entry points is reached in the scenario using it. -/
def unusedBackend : Backend where
  generateWithTools := fun _ _ => .error "unused"
  generate := fun _ => .ok "unused"

/-- Environment for the tool-loop scenarios: `n` tool-requesting steps,
iteration cap `m`, no retriever, the default tool registry. -/
def envC3 (n m : Nat) : Env where
  settings := mockSettings m
  backend := mockBackendN n
  retriever := none
  tools := defaultTools "T"
  mcpTools := []
  a2aTools := []

/-- Environment forcing the iteration cap: cap 2, a backend that always
requests a tool call. -/
def envC2 : Env where
  settings := mockSettings 2
  backend := alwaysToolBackend
  retriever := none
  tools := defaultTools "T"
  mcpTools := []
  a2aTools := []

/-- Environment for end-to-end scenario A (calculator requested once). -/
def envC1 : Env where
  settings := mockSettings 10
  backend := calcOnceBackend
  retriever := none
  tools := defaultTools "T"
  mcpTools := []
  a2aTools := []

/-- Environment for the tool-registry claims: default registry, flags at
their defaults (MCP and A2A disabled). -/
def envTools : Env where
  settings := defaultSettings
  backend := unusedBackend
  retriever := none
  tools := defaultTools "T"
  mcpTools := []
  a2aTools := []

/-- The first `k` rounds of the tool loop under `mockBackendN`: each
round appends the requesting assistant message and the resulting tool
message. -/
def roundsC3 : Nat → List Message
  | 0 => []
  | k + 1 => roundsC3 k ++ [wsCallMsg, wsToolMsg]

/-- The workflow state as the loop under `envC3` re-enters the reasoning
node after `k` completed rounds. -/
def stC3 (k : Nat) : AgentState where
  messages := .human "hello" :: roundsC3 k
  userId := 1
  documentId := none
  iterationCount := k
  context := none
  toolResults := if k = 0 then [] else [⟨"web_search", wsResult⟩]
  guardrailsRejected := false

/-- The final workflow state of the `envC3` scenario. -/
def stC3Final (n : Nat) : AgentState where
  messages := .human "hello" :: roundsC3 n ++ [plainAi "All done"]
  userId := 1
  documentId := none
  iterationCount := n + 1
  context := none
  toolResults := if n = 0 then [] else [⟨"web_search", wsResult⟩]
  guardrailsRejected := false

/-- A retriever that raises on every call. -/
def failRetriever (msg : String) : Retriever where
  getRelevantContext := fun _ _ _ _ => .error msg

/-- A backend whose `generate_with_tools` raises while `generate`
succeeds with a fixed answer. -/
def wtFailBackend (e g : String) : Backend where
  generateWithTools := fun _ _ => .error e
  generate := fun _ => .ok g

/-- Witness environment for the fallback claim. -/
def envC5w : Env where
  settings := mockSettings 10
  backend := wtFailBackend "tool calling unsupported" "plain answer"
  retriever := none
  tools := defaultTools "T"
  mcpTools := []
  a2aTools := []

/-- Witness environment for the retrieval-failure claim: tools disabled,
a retriever that always raises. -/
def envC6w : Env where
  settings := { defaultSettings with AGENT_ENABLE_TOOLS := false }
  backend := { generateWithTools := fun _ _ => .error "unused", generate := fun _ => .ok "fine" }
  retriever := some (failRetriever "boom")
  tools := defaultTools "T"
  mcpTools := []
  a2aTools := []

/-- Witness environment for the rejected-input claim. -/
def envC4w : Env where
  settings := defaultSettings
  backend := unusedBackend
  retriever := none
  tools := defaultTools "T"
  mcpTools := []
  a2aTools := []

/-- A state whose last assistant message requests an unknown tool and a
valid `web_search` call (used to exhibit per-call error isolation). -/
def stMixedCalls : AgentState where
  messages := [.human "hello",
    .ai "" ⟨[⟨"no_such_tool", [], "call-a"⟩, ⟨"web_search", [("query", "x")], "call-b"⟩], []⟩]
  userId := 1
  documentId := none
  iterationCount := 1
  context := none
  toolResults := []
  guardrailsRejected := false

/-- Witness state for the output-filter claim: a toxic final assistant
message carrying tool-call and metadata fields. -/
def stC8w : AgentState where
  messages := [.human "hi", .ai "violence is the answer" ⟨[], [("id", "m-1")]⟩]
  userId := 1
  documentId := none
  iterationCount := 1
  context := none
  toolResults := []
  guardrailsRejected := false

/-! ## Sanity lemmas about the embedding -/

theorem sizeList_children_lt (a : PyAst) : sizeList a.children < a.size := by
  cases a <;>
    simp only [PyAst.children, sizeList, PyAst.size, List.map_cons, List.map_nil,
      List.sum_cons, List.sum_nil] <;>
    omega

/-- The walk's fuel never truncates the traversal: any two fuels that
cover the total size of the queue give the same node list, so
`astWalk tree = walkAuxF fuel [tree]` for every `fuel ≥ tree.size`. -/
theorem walkAuxF_fuel_irrelevant :
    ∀ (fuel fuel' : Nat) (q : List PyAst), sizeList q ≤ fuel → sizeList q ≤ fuel' →
      walkAuxF fuel q = walkAuxF fuel' q := by
  intro fuel
  induction fuel with
  | zero =>
    intro fuel' q hq _
    cases q with
    | nil => cases fuel' <;> rfl
    | cons n todo =>
      exfalso
      have h1 : 0 < n.size := Nat.lt_of_le_of_lt (Nat.zero_le _) (sizeList_children_lt n)
      simp only [sizeList, List.map_cons, List.sum_cons] at hq
      omega
  | succ f ih =>
    intro fuel' q hq hq'
    cases q with
    | nil => cases fuel' <;> rfl
    | cons n todo =>
      have h1 : 0 < n.size := Nat.lt_of_le_of_lt (Nat.zero_le _) (sizeList_children_lt n)
      have hsz : sizeList (n :: todo) = n.size + sizeList todo := by
        simp [sizeList]
      have hstep : sizeList (todo ++ n.children) + 1 ≤ sizeList (n :: todo) := by
        have := sizeList_children_lt n
        simp only [sizeList, List.map_append, List.sum_append] at *
        omega
      cases fuel' with
      | zero => omega
      | succ f' =>
        simp only [walkAuxF]
        have := ih f' (todo ++ n.children) (by omega) (by omega)
        rw [this]

/-- The calculator's validation loop rejects every successfully parsed
expression: the root `Expression` node is the first node of the walk and
takes the `else` branch. -/
theorem validateWalk_expression (e : PyAst) :
    validateWalk (astWalk (.expression e)) =
      some "Error: Only basic arithmetic operations are allowed" := by
  simp [astWalk, PyAst.size, walkAuxF, validateWalk, validateNode]

/-! ## Claim theorems -/

/-- C1: the claim says `calculator(expression="2+2")` returns `"4"` and
that the end-to-end scenario records `[{"tool":"calculator","result":"4"}]`.
The code disagrees: `ast.walk` yields the root `ast.Expression` node
first, which falls into the validation loop's catch-all `else`, so the
calculator answers the fixed error string for every expression, the
end-to-end `tool_results` records that error string, and no "4" is
produced anywhere. -/
theorem c1_calculator_never_returns_four :
    calculator "2+2" = "Error: Only basic arithmetic operations are allowed" ∧
    runAgent envC1 "What is 2+2?" 1 none = .ok
      ({ response := "Done",
         messages := [.human "What is 2+2?", calcCallMsg,
           .tool "Error: Only basic arithmetic operations are allowed" "call-1",
           plainAi "Done"],
         toolResults := [⟨"calculator", "Error: Only basic arithmetic operations are allowed"⟩],
         iterations := 2,
         contextUsed := false },
       [.llmToolsCall, .llmToolsCall]) := by
  exact ⟨by decide, by rfl⟩

/-- C2: against a backend that requests a tool call on every reasoning
step with the cap set to 2, the turn does terminate with
`iteration_count = 2` (the cap), but the fixed limit message is appended
to a local copy of the message list and lost, so the conversation ends
with a tool message, no message of the conversation carries the limit
text, and the extracted response is empty. -/
theorem c2_iteration_cap_no_limit_message :
    runAgent envC2 "hello" 1 none = .ok
      ({ response := "",
         messages := [.human "hello", wsCallMsg, wsToolMsg, wsCallMsg, wsToolMsg],
         toolResults := [⟨"web_search", wsResult⟩],
         iterations := 2,
         contextUsed := false },
       [.llmToolsCall, .llmToolsCall]) ∧
    (([.human "hello", wsCallMsg, wsToolMsg, wsCallMsg, wsToolMsg] : List Message).all
      (fun msg => !(Message.content msg == limitText))) = true := by
  exact ⟨by rfl, by decide⟩

/-- C3 counterexample: with a mock backend that requests a tool call
exactly twice (N = 2) and then stops, the final `tool_results` has one
entry — the last tool-execution phase overwrites the key — not the two
entries the claim demands. -/
theorem c3_tool_results_overwritten_cex :
    runAgent (envC3 2 10) "hello" 1 none = .ok
      ({ response := "All done",
         messages := [.human "hello", wsCallMsg, wsToolMsg, wsCallMsg, wsToolMsg,
           plainAi "All done"],
         toolResults := [⟨"web_search", wsResult⟩],
         iterations := 3,
         contextUsed := false },
       [.llmToolsCall, .llmToolsCall, .llmToolsCall]) ∧
    ¬ (([(⟨"web_search", wsResult⟩ : ToolResult)]).length = 2) := by
  exact ⟨by rfl, by decide⟩

theorem startsWithL_append (pre rest : List Char) : startsWithL pre (pre ++ rest) = true := by
  induction pre with
  | nil => rfl
  | cons c cs ih => simp [startsWithL, ih]

theorem hasSubstr_self_append (pre rest : List Char) : hasSubstr pre (pre ++ rest) = true := by
  cases pre with
  | nil =>
    cases rest with
    | nil => rfl
    | cons c cs => simp [hasSubstr, startsWithL]
  | cons c cs =>
    simp [hasSubstr, startsWithL, startsWithL_append]

/-- The captured retrieval-error context is a non-empty string, hence truthy. -/
theorem errCtx_truthy (m : String) :
    ctxTruthy (some ("Error retrieving context: " ++ m)) = true := by
  have hne : ("Error retrieving context: " ++ m) ≠ "" := by
    intro h
    have := congrArg String.length h
    simp [String.length_append] at this
    exact absurd this.1 (by decide)
  simp [ctxTruthy, hne]

/-- C4: with guardrails enabled, an input failing the safety predicate
terminates the turn at the guardrails stage: no exception, the rejection
reason in the response text, `iteration_count = 0`, no retrieval and no
reasoning call (the event trace is empty), and exactly one synthetic
assistant message added to the conversation. -/
theorem c4_rejected_input_short_circuits (env : Env) (query : String) (uid : Int)
    (doc : Option Int) (r : String)
    (hen : env.settings.GUARDRAILS_ENABLED = true)
    (hrej : checkInput env.settings query.data = (false, some r)) :
    runAgent env query uid doc = .ok
      ({ response := "Input rejected: " ++ r,
         messages := [.human query, plainAi ("Input rejected: " ++ r)],
         toolResults := [],
         iterations := 0,
         contextUsed := false },
       []) := by
  unfold runAgent runAgentState guardrailsNode
  simp [hen, hrej, shouldContinueAfterGuardrails, mkRunResult, optStr, plainAi]

/-- Witness for C4 at a concrete PII-bearing input. -/
theorem c4_rejected_input_short_circuits_witness :
    envC4w.settings.GUARDRAILS_ENABLED = true ∧
    checkInput envC4w.settings "contact me at a@b.com".data =
      (false, some "Input contains potentially sensitive information") ∧
    runAgent envC4w "contact me at a@b.com" 1 none = .ok
      ({ response := "Input rejected: Input contains potentially sensitive information",
         messages := [.human "contact me at a@b.com",
           plainAi "Input rejected: Input contains potentially sensitive information"],
         toolResults := [],
         iterations := 0,
         contextUsed := false },
       []) :=
  ⟨rfl, by decide,
    c4_rejected_input_short_circuits envC4w "contact me at a@b.com" 1 none
      "Input contains potentially sensitive information" rfl (by decide)⟩

/-- C5: a backend whose `generate_with_tools` raises while `generate`
succeeds still yields a successful `run()` — the tool-call exception is
swallowed by the fallback, the reasoning step degrades to plain
generation, and the returned response is the plain generation's text. -/
theorem c5_tool_call_fallback (env : Env) (query : String) (uid : Int) (doc : Option Int)
    (e g : String)
    (hq : checkInput env.settings query.data = (true, none))
    (hret : env.retriever = none)
    (hmax : 0 < env.settings.AGENT_MAX_ITERATIONS)
    (ht : env.settings.AGENT_ENABLE_TOOLS = true)
    (hp : (env.settings.LLM_PROVIDER == LLMProvider.groq) = false)
    (hav : (availableTools env).isEmpty = false)
    (hwt : ∀ ms ts, env.backend.generateWithTools ms ts = .error e)
    (hgen : ∀ ms, env.backend.generate ms = .ok g)
    (hout : checkOutput env.settings g.data = (true, none)) :
    runAgent env query uid doc = .ok
      ({ response := g,
         messages := [.human query, plainAi g],
         toolResults := [],
         iterations := 1,
         contextUsed := false },
       [.llmToolsCall, .llmGenCall]) := by
  have hnot : ¬ env.settings.AGENT_MAX_ITERATIONS ≤ 0 := by omega
  unfold runAgent runAgentState guardrailsNode ragRetrievalNode
  obtain ⟨f, hf⟩ : ∃ f, env.settings.AGENT_MAX_ITERATIONS = f + 1 :=
    ⟨env.settings.AGENT_MAX_ITERATIONS - 1, by omega⟩
  by_cases henb : env.settings.GUARDRAILS_ENABLED <;>
    simp [henb, hq, hret, shouldContinueAfterGuardrails, hf, agentLoop, agentNode,
      ctxTruthy, isSystemMsg, ht, hp, hav, hwt, hgen, shouldUseTools, plainAi,
      responseGenerationNode, hout, mkRunResult]

/-- Witness for C5 at a concrete environment. -/
theorem c5_tool_call_fallback_witness :
    checkInput envC5w.settings "hello".data = (true, none) ∧
    envC5w.retriever = none ∧
    0 < envC5w.settings.AGENT_MAX_ITERATIONS ∧
    runAgent envC5w "hello" 1 none = .ok
      ({ response := "plain answer",
         messages := [.human "hello", plainAi "plain answer"],
         toolResults := [],
         iterations := 1,
         contextUsed := false },
       [.llmToolsCall, .llmGenCall]) :=
  ⟨by decide, rfl, by decide,
    c5_tool_call_fallback envC5w "hello" 1 none "tool calling unsupported" "plain answer"
      (by decide) rfl (by decide) rfl rfl rfl (fun _ _ => rfl) (fun _ => rfl) (by decide)⟩

/-- C6: a retriever that raises does not abort the turn: `run()` returns
successfully, the raised message is captured as the turn's context text
prefixed with the error marker, the reasoning stage still runs (the trace
shows the generation call after the retrieval call), and the result's
context-based disjunct of the claim holds through the error marker in the
context. -/
theorem c6_retrieval_failure_degrades (env : Env) (query : String) (uid : Int)
    (doc : Option Int) (retr : Retriever) (m g : String)
    (hret : env.retriever = some retr)
    (hfail : ∀ q u d k, retr.getRelevantContext q u d k = .error m)
    (hq : checkInput env.settings query.data = (true, none))
    (htools : env.settings.AGENT_ENABLE_TOOLS = false)
    (hmax : 0 < env.settings.AGENT_MAX_ITERATIONS)
    (hgen : ∀ ms, env.backend.generate ms = .ok g)
    (hout : checkOutput env.settings g.data = (true, none)) :
    runAgentState env query uid doc = .ok
      ({ messages := [.human query, plainAi g],
         userId := uid,
         documentId := doc,
         iterationCount := 1,
         context := some ("Error retrieving context: " ++ m),
         toolResults := [],
         guardrailsRejected := false },
       [.ragCall, .llmGenCall]) ∧
    runAgent env query uid doc = .ok
      ({ response := g,
         messages := [.human query, plainAi g],
         toolResults := [],
         iterations := 1,
         contextUsed := true },
       [.ragCall, .llmGenCall]) ∧
    hasSubstr "Error retrieving context: ".data ("Error retrieving context: " ++ m).data
      = true := by
  refine ⟨?_, ?_, ?_⟩
  · have hnot : ¬ env.settings.AGENT_MAX_ITERATIONS ≤ 0 := by omega
    unfold runAgentState guardrailsNode ragRetrievalNode
    obtain ⟨f, hf⟩ : ∃ f, env.settings.AGENT_MAX_ITERATIONS = f + 1 :=
      ⟨env.settings.AGENT_MAX_ITERATIONS - 1, by omega⟩
    by_cases henb : env.settings.GUARDRAILS_ENABLED <;>
      simp [henb, hq, hret, hfail, shouldContinueAfterGuardrails, hf, agentLoop, agentNode,
        errCtx_truthy, insertPenultimate, isSystemMsg, htools, hgen, shouldUseTools, plainAi,
        responseGenerationNode, hout, optStr]
  · have hnot : ¬ env.settings.AGENT_MAX_ITERATIONS ≤ 0 := by omega
    unfold runAgent runAgentState guardrailsNode ragRetrievalNode
    obtain ⟨f, hf⟩ : ∃ f, env.settings.AGENT_MAX_ITERATIONS = f + 1 :=
      ⟨env.settings.AGENT_MAX_ITERATIONS - 1, by omega⟩
    by_cases henb : env.settings.GUARDRAILS_ENABLED <;>
      simp [henb, hq, hret, hfail, shouldContinueAfterGuardrails, hf, agentLoop, agentNode,
        errCtx_truthy, insertPenultimate, isSystemMsg, htools, hgen, shouldUseTools, plainAi,
        responseGenerationNode, hout, mkRunResult, optStr]
  · rw [String.data_append]
    exact hasSubstr_self_append _ _

/-- Witness for C6 at a concrete environment with an always-raising retriever. -/
theorem c6_retrieval_failure_degrades_witness :
    envC6w.retriever = some (failRetriever "boom") ∧
    checkInput envC6w.settings "hello".data = (true, none) ∧
    runAgent envC6w "hello" 1 none = .ok
      ({ response := "fine",
         messages := [.human "hello", plainAi "fine"],
         toolResults := [],
         iterations := 1,
         contextUsed := true },
       [.ragCall, .llmGenCall]) :=
  ⟨rfl, by decide,
    (c6_retrieval_failure_degrades envC6w "hello" 1 none (failRetriever "boom") "boom" "fine"
      rfl (fun _ _ _ _ => rfl) (by decide) rfl (by decide) (fun _ => rfl) (by decide)).2.1⟩

/-- C7 counterexample: calling the registered `calculator` with an empty
argument dict triggers the schema validation, and `execute_tool` lets the
resulting exception propagate to its caller (`error` models a raised
exception) instead of converting it into a returned error value as the
claim states. -/
theorem c7_validation_error_raised_cex :
    executeTool envTools "calculator" [] =
      .error (.validationError "1 validation error for expression: Field required") := rfl

/-- C7 amended: `execute_tool` fails with a `ValueError` naming the tool
when no registered tool matches; argument-validation errors (and handler
exceptions) are *raised to the caller*, not converted into values — the
conversion happens in the caller, `_tool_execution_node`, which catches
each call's exception and embeds it into the conversation as an error
tool message, so one call's failure does not block the others. -/
theorem c7_execute_tool_error_contract :
    (∀ (tname : String) (args : List (String × String)),
      tname ∉ (["calculator", "web_search", "wikipedia_search", "get_current_time"] :
        List String) →
      executeTool envTools tname args =
        .error (.valueError ("Tool '" ++ tname ++ "' not found"))) ∧
    executeTool envTools "calculator" [] =
      .error (.validationError "1 validation error for expression: Field required") ∧
    toolExecutionNode envTools stMixedCalls =
      { stMixedCalls with
        messages := stMixedCalls.messages ++
          [.tool "Error executing tool: Tool 'no_such_tool' not found" "call-a",
           .tool wsResult "call-b"],
        toolResults := [⟨"web_search", wsResult⟩] } := by
  refine ⟨?_, rfl, by rfl⟩
  intro tname args h
  simp only [List.mem_cons, List.not_mem_nil, not_or, or_false] at h
  obtain ⟨h1, h2, h3, h4⟩ := h
  have g1 : ("calculator" == tname) = false := beq_eq_false_iff_ne.mpr (fun e => h1 e.symm)
  have g2 : ("web_search" == tname) = false := beq_eq_false_iff_ne.mpr (fun e => h2 e.symm)
  have g3 : ("wikipedia_search" == tname) = false := beq_eq_false_iff_ne.mpr (fun e => h3 e.symm)
  have g4 : ("get_current_time" == tname) = false := beq_eq_false_iff_ne.mpr (fun e => h4 e.symm)
  unfold executeTool
  simp [envTools, defaultTools, defaultSettings, calculatorTool, webSearchTool,
    wikipediaSearchTool, getCurrentTimeTool, List.find?, g1, g2, g3, g4]

/-- Witness for the universally quantified arm of C7's amended theorem. -/
theorem c7_execute_tool_error_contract_witness :
    executeTool envTools "no_such_tool" [] =
      .error (.valueError "Tool 'no_such_tool' not found") :=
  c7_execute_tool_error_contract.1 "no_such_tool" [] (by decide)

/-- C8: the output-safety stage leaves the state untouched when the final
assistant message passes the predicate, and otherwise replaces only that
last message with one whose content carries the rejection reason while
all of its other fields (`rest`) and all earlier messages (`pre`) are
preserved; the stage always routes on to `done` (the runner's no-tools
branch applies it and terminates unconditionally, by construction of
`agentLoop`). -/
theorem c8_output_filter_frame (env : Env) (pre : List Message) (c : String) (rest : AIRest)
    (st : AgentState) (hmsgs : st.messages = pre ++ [.ai c rest]) :
    (checkOutput env.settings c.data = (true, none) → responseGenerationNode env st = st) ∧
    (∀ r, env.settings.GUARDRAILS_ENABLED = true →
      checkOutput env.settings c.data = (false, some r) →
      responseGenerationNode env st =
        { st with messages := pre ++ [.ai ("Response filtered: " ++ r) rest] }) := by
  constructor
  · intro hpass
    unfold responseGenerationNode
    by_cases henb : env.settings.GUARDRAILS_ENABLED <;>
      simp [henb, hmsgs, hpass]
  · intro r hen hfail
    unfold responseGenerationNode
    simp [hen, hmsgs, hfail, optStr]

/-- Witness for C8 at a concrete filtered message. -/
theorem c8_output_filter_frame_witness :
    stC8w.messages = [.human "hi"] ++ [.ai "violence is the answer" ⟨[], [("id", "m-1")]⟩] ∧
    envTools.settings.GUARDRAILS_ENABLED = true ∧
    checkOutput envTools.settings "violence is the answer".data =
      (false, some "Response filtered due to content policy") ∧
    responseGenerationNode envTools stC8w =
      { stC8w with messages := [.human "hi"] ++
          [.ai "Response filtered: Response filtered due to content policy"
            ⟨[], [("id", "m-1")]⟩] } :=
  ⟨rfl, rfl, by decide,
    (c8_output_filter_frame envTools [.human "hi"] "violence is the answer"
        ⟨[], [("id", "m-1")]⟩ stC8w rfl).2
      "Response filtered due to content policy" rfl (by decide)⟩

/-- The toxicity score is 1 when the single pattern matches the lowercased
text and 0 otherwise. -/
theorem checkToxicityScore_eq (t : List Char) :
    checkToxicityScore t = if reSearch toxicityRe (t.map Char.toLower) then 1 else 0 := by
  unfold checkToxicityScore toxicityPatterns
  cases h : reSearch toxicityRe (t.map Char.toLower) <;>
    simp [h, List.filter] <;> decide

/-- C9: the safety gate's input check is a pure function of the text
(side-effect freedom and determinism hold by construction of the
embedding); its toxicity score lies in `[0,1]`; and with guardrails and
PII detection enabled it rejects exactly when the score exceeds the
configured ceiling or some PII pattern (email, phone, ssn, credit card)
matches — the PII arm being a boolean match, not a score. -/
theorem c9_safety_gate_characterization (s : Settings) (t : String)
    (hen : s.GUARDRAILS_ENABLED = true)
    (hpii : s.GUARDRAILS_MAX_PII_DETECTION = true) :
    0 ≤ checkToxicityScore t.data ∧ checkToxicityScore t.data ≤ 1 ∧
    ((checkInput s t.data).1 = false ↔
      (s.GUARDRAILS_MAX_TOXICITY_SCORE < checkToxicityScore t.data ∨
        detectPii t.data = true)) := by
  refine ⟨?_, ?_, ?_⟩
  · rw [checkToxicityScore_eq]; split <;> norm_num
  · rw [checkToxicityScore_eq]; split <;> norm_num
  · unfold checkInput
    simp only [hen, hpii, Bool.not_true, Bool.true_and, Bool.false_eq_true, if_false]
    split_ifs with h1 h2 <;> simp_all

/-- Witness for C9 at a concrete toxic input. -/
theorem c9_safety_gate_characterization_witness :
    defaultSettings.GUARDRAILS_ENABLED = true ∧
    defaultSettings.GUARDRAILS_MAX_PII_DETECTION = true ∧
    (0 ≤ checkToxicityScore "i hate this".data ∧
      checkToxicityScore "i hate this".data ≤ 1 ∧
      ((checkInput defaultSettings "i hate this".data).1 = false ↔
        (defaultSettings.GUARDRAILS_MAX_TOXICITY_SCORE <
            checkToxicityScore "i hate this".data ∨
          detectPii "i hate this".data = true))) :=
  ⟨rfl, rfl, c9_safety_gate_characterization defaultSettings "i hate this" rfl rfl⟩

theorem roundsC3_no_system (k : Nat) : (roundsC3 k).any isSystemMsg = false := by
  induction k with
  | zero => rfl
  | succ k ih => simp [roundsC3, ih, isSystemMsg, wsCallMsg, wsToolMsg]

theorem countToolMsgs_roundsC3 (k : Nat) : countToolMsgs (roundsC3 k) = k := by
  induction k with
  | zero => rfl
  | succ k ih =>
    simp [roundsC3, countToolMsgs, isToolMsg, wsCallMsg, wsToolMsg] at ih ⊢
    omega

/-- One tool-requesting pass of the reasoning node in the `envC3` scenario. -/
theorem agentNode_envC3_step (n m k : Nat) (hkm : k < m) (hkn : k < n) :
    agentNode (envC3 n m) (stC3 k) = .ok
      ({ (stC3 k) with
         iterationCount := k + 1
         messages := (stC3 k).messages ++ [wsCallMsg] },
       [.llmToolsCall]) := by
  have hcnt : countToolMsgs
      (.system systemPrompt :: .human "hello" :: roundsC3 k) = k := by
    simp [countToolMsgs, isToolMsg]
    have := countToolMsgs_roundsC3 k
    simp [countToolMsgs] at this
    exact this
  unfold agentNode
  simp [stC3, ctxTruthy, isSystemMsg, roundsC3_no_system, envC3, mockSettings,
    defaultSettings, Nat.not_le.mpr hkm, availableTools, defaultTools, mockBackendN,
    hcnt, hkn]

/-- The final, non-requesting pass of the reasoning node in the `envC3`
scenario. -/
theorem agentNode_envC3_last (n m : Nat) (hnm : n < m) :
    agentNode (envC3 n m) (stC3 n) = .ok
      ({ (stC3 n) with
         iterationCount := n + 1
         messages := (stC3 n).messages ++ [plainAi "All done"] },
       [.llmToolsCall]) := by
  have hcnt : countToolMsgs
      (.system systemPrompt :: .human "hello" :: roundsC3 n) = n := by
    simp [countToolMsgs, isToolMsg]
    have := countToolMsgs_roundsC3 n
    simp [countToolMsgs] at this
    exact this
  unfold agentNode
  simp [stC3, ctxTruthy, isSystemMsg, roundsC3_no_system, envC3, mockSettings,
    defaultSettings, Nat.not_le.mpr hnm, availableTools, defaultTools, mockBackendN,
    hcnt, plainAi]

theorem getLast?_cons_concat {α : Type} (a x : α) (l : List α) :
    (a :: (l ++ [x])).getLast? = some x := by
  rw [← List.cons_append, List.getLast?_concat]

/-- Tool execution after a requesting pass pushes the loop to the next
round's state. -/
theorem toolExec_envC3 (n m k : Nat) :
    toolExecutionNode (envC3 n m)
      ({ (stC3 k) with
         iterationCount := k + 1
         messages := (stC3 k).messages ++ [wsCallMsg] }) = stC3 (k + 1) := by
  have hexec : executeTool (envC3 n m) "web_search" [("query", "x")] = .ok wsResult := rfl
  unfold toolExecutionNode
  simp [stC3, wsCallMsg, getLast?_cons_concat, hexec, roundsC3, wsToolMsg]

/-- The output-safety stage passes the mock's final answer through. -/
theorem respGen_envC3 (n m : Nat) :
    responseGenerationNode (envC3 n m)
      ({ (stC3 n) with
         iterationCount := n + 1
         messages := (stC3 n).messages ++ [plainAi "All done"] }) =
      ({ (stC3 n) with
         iterationCount := n + 1
         messages := (stC3 n).messages ++ [plainAi "All done"] }) := by
  have hout : checkOutput (envC3 n m).settings "All done".data = (true, none) := rfl
  unfold responseGenerationNode
  simp [List.getLast?_concat, plainAi, hout]

/-- The reasoning/tool cycle under `envC3`, from any round `k`, with any
fuel covering the remaining rounds. -/
theorem agentLoop_envC3 (n m : Nat) (hnm : n < m) :
    ∀ j k fuel, k + j = n → j + 2 ≤ fuel →
      agentLoop (envC3 n m) fuel (stC3 k) =
        .ok ({ (stC3 n) with
               iterationCount := n + 1
               messages := (stC3 n).messages ++ [plainAi "All done"] },
          List.replicate (j + 1) Event.llmToolsCall) := by
  intro j
  induction j with
  | zero =>
    intro k fuel hk hfuel
    obtain ⟨f, rfl⟩ : ∃ f, fuel = f + 1 := ⟨fuel - 1, by omega⟩
    have hk0 : k = n := by omega
    rw [hk0]
    have hst1 : shouldUseTools
        ({ (stC3 n) with
           iterationCount := n + 1
           messages := (stC3 n).messages ++ [plainAi "All done"] }) = false := by
      simp [shouldUseTools, List.getLast?_concat, plainAi]
    simp only [agentLoop, agentNode_envC3_last n m hnm, hst1, Bool.false_eq_true,
      if_false, respGen_envC3]
    simp [List.replicate]
  | succ j ih =>
    intro k fuel hk hfuel
    obtain ⟨f, rfl⟩ : ∃ f, fuel = f + 1 := ⟨fuel - 1, by omega⟩
    have hkn : k < n := by omega
    have hkm : k < m := by omega
    have hst1 : shouldUseTools
        ({ (stC3 k) with
           iterationCount := k + 1
           messages := (stC3 k).messages ++ [wsCallMsg] }) = true := by
      simp [shouldUseTools, List.getLast?_concat, wsCallMsg]
    simp only [agentLoop, agentNode_envC3_step n m k hkm hkn, hst1, if_true,
      toolExec_envC3]
    rw [ih (k + 1) f (by omega) (by omega)]
    simp [List.replicate_succ]

/-- C3 amended: every tool call of each reasoning step is executed and
appended to the conversation as a tool message (the conversation shows
all `N` rounds), and one call's raised exception does not block the other
calls of the same step (see the third conjunct of
`c7_execute_tool_error_contract` for the two-call case); but only the
*successful* outcomes of the *last* tool-execution phase remain in
`tool_results`, because the node overwrites the key on every pass — so a
backend requesting one call per step `N` times leaves exactly the last
step's single entry, and the final response is the backend's non-tool-call
output. -/
theorem c3_tool_loop_last_write (n m : Nat) (hn : 0 < n) (hnm : n < m) :
    runAgent (envC3 n m) "hello" 1 none = .ok
      ({ response := "All done",
         messages := .human "hello" :: roundsC3 n ++ [plainAi "All done"],
         toolResults := [⟨"web_search", wsResult⟩],
         iterations := n + 1,
         contextUsed := false },
       List.replicate (n + 1) Event.llmToolsCall) := by
  have hg : checkInput (envC3 n m).settings "hello".data = (true, none) := rfl
  have hmax : (envC3 n m).settings.AGENT_MAX_ITERATIONS = m := rfl
  have hloop := agentLoop_envC3 n m hnm n 0 (m + 1) (by omega) (by omega)
  unfold runAgent runAgentState guardrailsNode ragRetrievalNode
  have henb : (envC3 n m).settings.GUARDRAILS_ENABLED = true := rfl
  have hret : (envC3 n m).retriever = (none : Option Retriever) := rfl
  simp only [henb, Bool.not_true, Bool.false_eq_true, if_false, List.getLast?_singleton,
    hg, hret, shouldContinueAfterGuardrails, Bool.not_false, if_true, hmax]
  have hst0 : ({ messages := [Message.human "hello"], userId := (1 : Int),
                 documentId := (none : Option Int), iterationCount := 0,
                 context := (none : Option String), toolResults := [],
                 guardrailsRejected := false } : AgentState) = stC3 0 := rfl
  rw [hst0, hloop]
  have hne : n ≠ 0 := by omega
  simp [mkRunResult, stC3, getLast?_cons_concat, plainAi, hne]

/-- Witness for C3's amended theorem at `N = 2`, cap 10. -/
theorem c3_tool_loop_last_write_witness :
    0 < 2 ∧ 2 < 10 ∧
    runAgent (envC3 2 10) "hello" 1 none = .ok
      ({ response := "All done",
         messages := .human "hello" :: roundsC3 2 ++ [plainAi "All done"],
         toolResults := [⟨"web_search", wsResult⟩],
         iterations := 2 + 1,
         contextUsed := false },
       List.replicate (2 + 1) Event.llmToolsCall) :=
  ⟨by decide, by decide, c3_tool_loop_last_write 2 10 (by decide) (by decide)⟩

/-- C10 counterexample: `"12345678901"` contains ten consecutive digits
(`"1234567890"` is a substring), yet `check_input` accepts it — the phone
pattern requires a word boundary on both sides of the ten digits, and the
eleventh digit removes the trailing boundary. -/
theorem c10_digits_in_longer_run_accepted_cex :
    hasSubstr "1234567890".data "12345678901".data = true ∧
    checkInput defaultSettings "12345678901".data = (true, none) :=
  ⟨by decide, by decide⟩

theorem wordOpt_some (c : Char) : wordOpt (some c) = isWordChar c := rfl

theorem mRep_zero (p : Char → Bool) : mRep p 0 = fun pv s k => k pv s := rfl

theorem mRep_three (p : Char → Bool) :
    mRep p 3 = mSeq (mChar p) (mSeq (mChar p) (mSeq (mChar p) (mRep p 0))) := rfl

theorem mRep_four (p : Char → Bool) :
    mRep p 4 = mSeq (mChar p) (mSeq (mChar p) (mSeq (mChar p)
      (mSeq (mChar p) (mRep p 0)))) := rfl

/-- Model fact: `re.search` succeeds whenever the pattern matches at the position
right after a prefix of the text. -/
theorem mSearch_append (m : Matcher) :
    ∀ (pre : List Char) (pv : Option Char) (rest : List Char),
      m (pre.getLast?.or pv) rest (fun _ _ => true) = true →
      mSearch m pv (pre ++ rest) = true := by
  intro pre
  induction pre with
  | nil =>
    intro pv rest h
    rw [mSearch.eq_def]
    simp only [List.getLast?_nil, Option.or] at h
    simp [h]
  | cons c pre' ih =>
    intro pv rest h
    have hprev : (c :: pre').getLast?.or pv = pre'.getLast?.or (some c) := by
      cases pre' with
      | nil => simp
      | cons d pre'' => simp [List.getLast?_cons_cons, List.getLast?_cons]
    rw [hprev] at h
    rw [List.cons_append, mSearch.eq_def]
    have := ih (some c) rest h
    simp [this]

/-- The phone pattern matches a ten-digit run (with optional `-`/`.`
separators after the third and sixth digit) flanked by word boundaries. -/
theorem phoneRe_matches (pv : Option Char) (d0 d1 d2 d3 d4 d5 d6 d7 d8 d9 : Char)
    (s1 s2 suf : List Char)
    (hd0 : d0.isDigit = true) (hd1 : d1.isDigit = true) (hd2 : d2.isDigit = true)
    (hd3 : d3.isDigit = true) (hd4 : d4.isDigit = true) (hd5 : d5.isDigit = true)
    (hd6 : d6.isDigit = true) (hd7 : d7.isDigit = true) (hd8 : d8.isDigit = true)
    (hd9 : d9.isDigit = true)
    (hs1 : s1 = [] ∨ s1 = ['-'] ∨ s1 = ['.'])
    (hs2 : s2 = [] ∨ s2 = ['-'] ∨ s2 = ['.'])
    (hpv : wordOpt pv = false)
    (hsuf : wordOpt suf.head? = false) :
    phoneRe pv
      ([d0, d1, d2] ++ (s1 ++ ([d3, d4, d5] ++ (s2 ++ ([d6, d7, d8, d9] ++ suf)))))
      (fun _ _ => true) = true := by
  rcases hs1 with rfl | rfl | rfl <;> rcases hs2 with rfl | rfl | rfl <;>
    simp [phoneRe, mSeq, mRep_three, mRep_four, mRep_zero, mChar, mOpt, mBdry,
      wordOpt_some, digitCh, isWordChar, hd0, hd1, hd2, hd3, hd4, hd5, hd6, hd7, hd8,
      hd9, hpv, hsuf, phoneSepCh]

/-- C10 amended: with guardrails and PII detection enabled, `check_input`
rejects every text containing ten consecutive digits (with or without
`-`/`.` separators after the third and sixth digit) that are neither
immediately preceded nor immediately followed by a word character
(`[A-Za-z0-9_]`); ten digits embedded in a longer word-character run —
e.g. an eleven-digit number — are not matched (see the counterexample). -/
theorem c10_bounded_ten_digit_run_rejected (s : Settings) (pre suf : List Char)
    (d0 d1 d2 d3 d4 d5 d6 d7 d8 d9 : Char) (s1 s2 : List Char)
    (hen : s.GUARDRAILS_ENABLED = true)
    (hpii : s.GUARDRAILS_MAX_PII_DETECTION = true)
    (hd0 : d0.isDigit = true) (hd1 : d1.isDigit = true) (hd2 : d2.isDigit = true)
    (hd3 : d3.isDigit = true) (hd4 : d4.isDigit = true) (hd5 : d5.isDigit = true)
    (hd6 : d6.isDigit = true) (hd7 : d7.isDigit = true) (hd8 : d8.isDigit = true)
    (hd9 : d9.isDigit = true)
    (hs1 : s1 = [] ∨ s1 = ['-'] ∨ s1 = ['.'])
    (hs2 : s2 = [] ∨ s2 = ['-'] ∨ s2 = ['.'])
    (hpre : wordOpt pre.getLast? = false)
    (hsuf : wordOpt suf.head? = false) :
    (checkInput s
      (pre ++ ([d0, d1, d2] ++ (s1 ++ ([d3, d4, d5] ++ (s2 ++ ([d6, d7, d8, d9] ++ suf))))))).1
      = false := by
  have hphone : reSearch phoneRe
      (pre ++ ([d0, d1, d2] ++ (s1 ++ ([d3, d4, d5] ++ (s2 ++ ([d6, d7, d8, d9] ++ suf))))))
      = true := by
    apply mSearch_append
    rw [Option.or_none]
    exact phoneRe_matches pre.getLast? d0 d1 d2 d3 d4 d5 d6 d7 d8 d9 s1 s2 suf
      hd0 hd1 hd2 hd3 hd4 hd5 hd6 hd7 hd8 hd9 hs1 hs2 hpre hsuf
  have hdet : detectPii
      (pre ++ ([d0, d1, d2] ++ (s1 ++ ([d3, d4, d5] ++ (s2 ++ ([d6, d7, d8, d9] ++ suf))))))
      = true := by
    simp only [detectPii, piiPatterns, List.any_cons, List.any_nil, Bool.or_eq_true,
      Bool.or_eq_false_iff]
    exact Or.inr (Or.inl hphone)
  unfold checkInput
  simp only [hen, Bool.not_true, Bool.false_eq_true, if_false]
  split_ifs with h1 h2
  · rfl
  · rfl
  · exfalso
    rw [hpii, hdet] at h2
    simp at h2

/-- Witness for C10's amended theorem: a plain ten-digit number quoted
after a space is rejected as sensitive information. -/
theorem c10_bounded_ten_digit_run_rejected_witness :
    defaultSettings.GUARDRAILS_ENABLED = true ∧
    wordOpt ("my number is ".data).getLast? = false ∧
    (checkInput defaultSettings
      ("my number is ".data ++
        (['5', '5', '5', '1', '2', '3'].take 3 ++
          (([] : List Char) ++ (['1', '2', '3'] ++
            (([] : List Char) ++ (['4', '5', '6', '7'] ++ ([] : List Char)))))))).1 = false :=
  ⟨rfl, by decide,
    c10_bounded_ten_digit_run_rejected defaultSettings "my number is ".data []
      '5' '5' '5' '1' '2' '3' '4' '5' '6' '7' [] [] rfl rfl
      (by decide) (by decide) (by decide) (by decide) (by decide) (by decide)
      (by decide) (by decide) (by decide) (by decide)
      (Or.inl rfl) (Or.inl rfl) (by decide) (by decide)⟩

end AiBackend
